import Mathlib

/-!
Shallow embedding of the article delivery pipeline (`DeliveryPipeline`,
src/unnamed/part_001) of this repository.

One call to `DeliveryPipeline.deliver` is modelled as a pure function from an
environment (the observable behaviour of the collaborators the pipeline calls:
the channel cache, `ArticleMessage.create`, the rate limiter, the REST
producer, the Mongo-backed `DeliveryRecord` store, `channel.send`) to
  * an `Except Err Unit` result — `Except.error` means the JS method's promise
    rejects, i.e. an exception escapes `deliver`;
  * an `Effects` record of every externally visible side effect, in order of
    the JS control flow;
  * the updated per-channel `ArticleQueue` registry (`this.queues`).
Machine-level concurrency (the `Promise.all` interleaving) is not modelled;
what is kept is its observable contract: every sub-request is issued, and the
whole set fails when any sub-request rejects, with the first rejection as the
reason.
-/

/-- Severity levels of the pipeline's logger (`this.log`). -/
inductive LogLevel
  | debug
  | info
  | warn
  | error
deriving DecidableEq

/-- A JavaScript `Error` as the pipeline inspects it: its `message` string and
its optional numeric `code` (Discord API errors carry e.g. `code = 50035`). -/
structure Err where
  message : String
  code : Option Nat
deriving DecidableEq

/-- `err.message.includes(sub)`: substring test on the message text. -/
def charsStartWith : List Char → List Char → Bool
  | _, [] => true
  | [], _ :: _ => false
  | a :: as, b :: bs => a == b && charsStartWith as bs

/-- Substring containment on character lists (JS `String.prototype.includes`). -/
def charsContain (needle : List Char) : List Char → Bool
  | [] => needle.isEmpty
  | c :: rest => charsStartWith (c :: rest) needle || charsContain needle rest

/-- JS `s.includes(sub)`. -/
def strIncludes (s sub : String) : Bool := charsContain sub.toList s.toList

/-- The article part of a `newArticle` object: `article._id`, `article.link`,
`article.title` are the fields the pipeline reads. -/
structure Article where
  _id : String
  link : String
  title : String
deriving DecidableEq

/-- The feed part of a `newArticle` object: `feedObject._id`, `feedObject.url`,
`feedObject.channel`, `feedObject.webhook`. -/
structure FeedObject where
  _id : String
  url : String
  channel : String
  webhook : Option String
deriving DecidableEq

/-- A `newArticle` object `{ article, feedObject }` as consumed by `deliver`. -/
structure NewArticle where
  article : Article
  feedObject : FeedObject
deriving DecidableEq

/-- The medium resolved by `articleMessage.getMedium(bot)`: a channel, or a
webhook (`medium instanceof Webhook`) with its id and token. -/
inductive Medium
  | channel (id : String)
  | webhook (id tok : String)
deriving DecidableEq

/-- The observable behaviour of the `ArticleMessage` built by
`ArticleMessage.create`: its filter verdict `passedFilters()`, the medium
`getMedium` resolves at dispatch time (`none` = the channel or webhook has
vanished), and the payload bodies `createAPIPayloads` produces. -/
structure ArticleMessage where
  passedFilters : Bool
  medium : Option Medium
  apiPayloads : List String
deriving DecidableEq

/-- Environment of one `deliver` call: the behaviour of every collaborator the
pipeline talks to during that call. -/
structure Env where
  /-- `this.bot.channels.cache.get(feedObject.channel)` hits. -/
  channelInCache : Bool
  /-- Result of `ArticleMessage.create` (may throw during rendering). -/
  createResult : Except Err ArticleMessage
  /-- `ArticleRateLimiter.assertWithinLimits`: `none` = within limits,
  `some e` = it throws `e`. -/
  rateLimit : Option Err
  /-- Whether `this.restProducer` is non-null (direct-send mode). -/
  restProducer : Bool
  /-- Per-payload result of `this.restProducer.enqueue` (`none` = fulfilled). -/
  enqueueResult : String → Option Err
  /-- `Feed.isMongoDatabase`: the delivery-record store is enabled. -/
  isMongoDatabase : Bool
  /-- `record.save()` rejects. -/
  saveFails : Bool
  /-- Result of the diagnostic `channel.send` (`none` = fulfilled,
  `some e` = it throws `e`). -/
  channelSendResult : Option Err
  /-- `config.log.unfiltered === true`. -/
  logFiltered : Bool

/-- One row of the `DeliveryRecord` store, as built by `recordFailure` /
`recordFilterBlock`. -/
structure DeliveryRecordData where
  articleID : String
  feedURL : String
  channel : String
  delivered : Bool
  comment : String
deriving DecidableEq

/-- Externally visible side effects of a pipeline call, in control-flow order. -/
structure Effects where
  /-- `DeliveryRecord` rows whose `save()` succeeded. -/
  records : List DeliveryRecordData := []
  /-- Outbound requests issued through `restProducer.enqueue`: (URL, body). -/
  dispatches : List (String × String) := []
  /-- Client-side enqueues: (queue instance id, channel id). -/
  queued : List (Nat × String) := []
  /-- Diagnostic messages delivered via `channel.send`. -/
  notifications : List String := []
  /-- Log lines, with severity. -/
  logs : List (LogLevel × String) := []
  /-- Number of calls to `ArticleRateLimiter.assertWithinLimits`. -/
  rateChecks : Nat := 0
  /-- Number of calls to `ArticleMessage.create`. -/
  renders : Nat := 0
deriving DecidableEq

def Effects.empty : Effects := {}

def Effects.append (a b : Effects) : Effects where
  records := a.records ++ b.records
  dispatches := a.dispatches ++ b.dispatches
  queued := a.queued ++ b.queued
  notifications := a.notifications ++ b.notifications
  logs := a.logs ++ b.logs
  rateChecks := a.rateChecks + b.rateChecks
  renders := a.renders + b.renders

instance : Append Effects := ⟨Effects.append⟩

/-- A single log line as an effect. -/
def logOne (lvl : LogLevel) (msg : String) : Effects := { logs := [(lvl, msg)] }

/-- The `this.queues` map of the pipeline: `ArticleQueue` instances by channel
id. Queue instances are identified by the order of their creation
(`nextId` is the id the next `new ArticleQueue(this.bot)` will get). -/
structure QueueState where
  queues : List (String × Nat) := []
  nextId : Nat := 0
deriving DecidableEq

/-- `this.queues.get(channelID)` (also backs `this.queues.has`). -/
def QueueState.findQueue (s : QueueState) (channelID : String) : Option Nat :=
  (s.queues.find? (fun q => q.1 == channelID)).map (fun q => q.2)

namespace DeliveryPipeline

/-- `getQueueForChannel(channelID)`: return the channel's queue, creating it
first when none exists yet. -/
def getQueueForChannel (s : QueueState) (channelID : String) : Nat × QueueState :=
  match s.findQueue channelID with
  | none => (s.nextId, ⟨(channelID, s.nextId) :: s.queues, s.nextId + 1⟩)
  | some q => (q, s)

/-- The API route chosen in `sendToService` from the resolved medium. -/
def apiRouteFor : Medium → String
  | Medium.webhook id tok => "/webhooks/" ++ id ++ "/" ++ tok
  | Medium.channel id => "/channels/" ++ id ++ "/messages"

/-- `sendToService(newArticle, articleMessage)`: assert the medium still
exists (throw `Missing medium to send article via service` otherwise), then
issue one `restProducer.enqueue` per API payload under `Promise.all` — every
request is issued, and the call rejects with the first rejection if any
sub-request rejects. The correlation metadata passed with each request
(articleID, feedURL, channel) is observability-only and not modelled. -/
def sendToService (env : Env) (na : NewArticle) (am : ArticleMessage) :
    Except Err Unit × Effects :=
  match am.medium with
  | none => (Except.error ⟨"Missing medium to send article via service", none⟩, Effects.empty)
  | some medium =>
      let url := "https://discord.com/api" ++ apiRouteFor medium
      let dispatches := am.apiPayloads.map (fun p => (url, p))
      match am.apiPayloads.findSome? env.enqueueResult with
      | none => (Except.ok (), { dispatches := dispatches })
      | some e => (Except.error e, { dispatches := dispatches })

/-- `recordFailure(newArticle, errorMessage)`: no-op when the store is
disabled; otherwise build the record, log at debug, and save — a rejected
save is caught and logged at error severity, never rethrown. -/
def recordFailure (env : Env) (na : NewArticle) (errorMessage : String) : Effects :=
  if !env.isMongoDatabase then Effects.empty
  else
    let data : DeliveryRecordData :=
      { articleID := na.article._id
        feedURL := na.feedObject.url
        channel := na.feedObject.channel
        delivered := false
        comment := errorMessage }
    let eff := logOne LogLevel.debug "Recording delivery record failure"
    if env.saveFails then
      eff ++ logOne LogLevel.error
        ("Failed to record article " ++ na.article._id ++
         " delivery failure in channel " ++ na.feedObject.channel ++
         " (error: " ++ errorMessage ++ ")")
    else
      eff ++ { records := [data] }

/-- `recordFilterBlock(newArticle)`: like `recordFailure` but with the fixed
comment `Blocked by filters`. -/
def recordFilterBlock (env : Env) (na : NewArticle) : Effects :=
  if !env.isMongoDatabase then Effects.empty
  else
    let data : DeliveryRecordData :=
      { articleID := na.article._id
        feedURL := na.feedObject.url
        channel := na.feedObject.channel
        delivered := false
        comment := "Blocked by filters" }
    let eff := logOne LogLevel.debug "Recording delivery record filter block"
    if env.saveFails then
      eff ++ logOne LogLevel.error
        ("Failed to record article " ++ na.article._id ++
         " delivery blocked by filters in channel " ++ na.feedObject.channel)
    else
      eff ++ { records := [data] }

/-- `handleArticleBlocked(newArticle)`: optional info log (when
`log.unfiltered` is set), then the filter-block record. -/
def handleArticleBlocked (env : Env) (na : NewArticle) : Effects :=
  (if env.logFiltered then
      logOne LogLevel.info
        ((if na.article.link = "" then na.article.title else na.article.link) ++
         " did not pass filters and was not sent")
    else Effects.empty) ++ recordFilterBlock env na

/-- `handleArticleFailure(newArticle, err)`: always record the failure first
(`err.message || 'N/A'` as comment); then, if the message contains
`limited`, log at debug and return; otherwise log at warn and, when
`err.code === 50035`, send the diagnostic message to the channel — a throw
from that `channel.send` propagates out of the handler. -/
def handleArticleFailure (env : Env) (na : NewArticle) (err : Err) :
    Except Err Unit × Effects :=
  let eff := recordFailure env na (if err.message = "" then "N/A" else err.message)
  if strIncludes err.message "limited" then
    (Except.ok (), eff ++ logOne LogLevel.debug "Ignoring rate-limited article")
  else
    let eff2 := eff ++ logOne LogLevel.warn
      ("Failed to deliver article " ++ na.article._id ++ " (" ++ na.article.link ++
       ") of feed " ++ na.feedObject._id)
    if err.code == some 50035 then
      match env.channelSendResult with
      | none =>
          (Except.ok (), eff2 ++
            { notifications :=
                ["Failed to send article <" ++ na.article.link ++ ">.```" ++
                 err.message ++ "```"] })
      | some e => (Except.error e, eff2)
    else
      (Except.ok (), eff2)

/-- `sendNewArticle(newArticle, articleMessage)`: assert rate limits (a throw
aborts here), then either dispatch through the service (direct-send mode) or
enqueue into the channel's `ArticleQueue` (client mode). -/
def sendNewArticle (env : Env) (na : NewArticle) (am : ArticleMessage)
    (qs : QueueState) : Except Err Unit × Effects × QueueState :=
  let check : Effects := { rateChecks := 1 }
  match env.rateLimit with
  | some e => (Except.error e, check, qs)
  | none =>
      if env.restProducer then
        match sendToService env na am with
        | (Except.ok _, eff) =>
            (Except.ok (), check ++ eff ++ logOne LogLevel.debug
              ("Sent article " ++ na.article._id ++ " of feed " ++
               na.feedObject._id ++ " to service"), qs)
        | (Except.error e, eff) => (Except.error e, check ++ eff, qs)
      else
        let res := getQueueForChannel qs na.feedObject.channel
        (Except.ok (), check ++ { queued := [(res.1, na.feedObject.channel)] } ++
          logOne LogLevel.debug
            ("Enqueued article " ++ na.article._id ++ " of feed " ++
             na.feedObject._id ++ " within client"), res.2)

/-- `deliver(newArticle, debug)`: resolve the channel (silent return when it is
not in the cache), render the message, evaluate filters, then send; every
throw inside the `try` is routed to `handleArticleFailure`, whose own throw —
if any — escapes `deliver`. -/
def deliver (env : Env) (na : NewArticle) (qs : QueueState) :
    Except Err Unit × Effects × QueueState :=
  if !env.channelInCache then (Except.ok (), Effects.empty, qs)
  else
    let render : Effects := { renders := 1 }
    match env.createResult with
    | Except.error e =>
        let res := handleArticleFailure env na e
        (res.1, render ++ res.2, qs)
    | Except.ok am =>
        if !am.passedFilters then
          (Except.ok (), render ++ handleArticleBlocked env na, qs)
        else
          let pre := logOne LogLevel.debug
            ("Preparing to send new article " ++ na.article._id ++ " of feed " ++
             na.feedObject._id ++ " to service")
          match sendNewArticle env na am qs with
          | (Except.ok _, eff, qs') => (Except.ok (), render ++ pre ++ eff, qs')
          | (Except.error e, eff, qs') =>
              let res := handleArticleFailure env na e
              (res.1, render ++ pre ++ eff ++ res.2, qs')

end DeliveryPipeline

/-- Modelled from the spec: `ArticleRateLimiter.assertWithinLimits`
(ArticleMessageRateLimiter.js is not under src/) signals a rate-limited
condition by throwing an error that is "distinguishable from other failures so
callers can suppress noisy warnings"; in the pipeline's own code that
distinction is made by the message containing `limited`, so a rate-limit
signal is an error whose message contains that substring. -/
def isRateLimitSignal (e : Err) : Bool := strIncludes e.message "limited"

/-! Concrete fixtures used by counterexamples and witnesses. -/

/-- A concrete `newArticle`. -/
def artA : NewArticle :=
  { article := { _id := "a1", link := "https://example.com/a1", title := "t1" }
    feedObject := { _id := "f1", url := "https://feed.example/rss", channel := "chan1", webhook := none } }

/-- A concrete `ArticleMessage` that passes filters and resolves a channel. -/
def amOK : ArticleMessage :=
  { passedFilters := true, medium := some (Medium.channel "chan1"), apiPayloads := ["p1"] }

/-- Baseline environment: channel cached, message renders and passes filters,
within rate limits, direct-send producer configured, every enqueue fulfills,
Mongo store enabled and saving, diagnostic sends fulfill. -/
def envBase : Env :=
  { channelInCache := true
    createResult := Except.ok amOK
    rateLimit := none
    restProducer := true
    enqueueResult := fun _ => none
    isMongoDatabase := true
    saveFails := false
    channelSendResult := none
    logFiltered := true }

/-- The channel is missing from the cache at the start of `deliver`. -/
def envNoChannel : Env := { envBase with channelInCache := false }

/-- `assertWithinLimits` throws a rate-limit error. -/
def envRateLimited : Env :=
  { envBase with rateLimit := some ⟨"Article rate limited for channel", none⟩ }

/-- The medium vanishes between resolution and dispatch. -/
def envVanishedMedium : Env :=
  { envBase with createResult := Except.ok { amOK with medium := none } }

/-- Dispatch fails with the bad-request code 50035 and the diagnostic
`channel.send` itself throws. -/
def envBadRequest : Env :=
  { envBase with
      enqueueResult := fun _ => some ⟨"Invalid Form Body", some 50035⟩
      channelSendResult := some ⟨"Missing Permissions", none⟩ }

/-- Dispatch fails with code 50035 and the diagnostic send fulfills. -/
def envBadRequestNotify : Env :=
  { envBase with enqueueResult := fun _ => some ⟨"Invalid Form Body", some 50035⟩ }

/-- Dispatch fails with code 50035 but a message containing `limited`. -/
def envLimited50035 : Env :=
  { envBase with enqueueResult := fun _ => some ⟨"limited", some 50035⟩ }

/-- The rendered message fails the content filters. -/
def envBlocked : Env :=
  { envBase with createResult := Except.ok { amOK with passedFilters := false } }

/-- Persistence disabled. -/
def envMongoOff : Env := { envBase with isMongoDatabase := false }

/-- Persistence enabled but every `record.save()` rejects. -/
def envSaveFail : Env := { envBase with saveFails := true }

/-- No REST producer: client-side queue mode. -/
def envQueueMode : Env := { envBase with restProducer := false }

/-! Projection lemmas for effect concatenation. -/

@[simp] theorem Effects.append_records (a b : Effects) : (a ++ b).records = a.records ++ b.records := rfl

@[simp] theorem Effects.append_dispatches (a b : Effects) : (a ++ b).dispatches = a.dispatches ++ b.dispatches := rfl

@[simp] theorem Effects.append_queued (a b : Effects) : (a ++ b).queued = a.queued ++ b.queued := rfl

@[simp] theorem Effects.append_notifications (a b : Effects) : (a ++ b).notifications = a.notifications ++ b.notifications := rfl

@[simp] theorem Effects.append_logs (a b : Effects) : (a ++ b).logs = a.logs ++ b.logs := rfl

@[simp] theorem Effects.append_rateChecks (a b : Effects) : (a ++ b).rateChecks = a.rateChecks + b.rateChecks := rfl

@[simp] theorem Effects.append_renders (a b : Effects) : (a ++ b).renders = a.renders + b.renders := rfl

@[simp] theorem Effects.empty_records : Effects.empty.records = [] := rfl

@[simp] theorem Effects.empty_dispatches : Effects.empty.dispatches = [] := rfl

@[simp] theorem Effects.empty_queued : Effects.empty.queued = [] := rfl

@[simp] theorem Effects.empty_notifications : Effects.empty.notifications = [] := rfl

@[simp] theorem Effects.empty_logs : Effects.empty.logs = [] := rfl

@[simp] theorem Effects.empty_rateChecks : Effects.empty.rateChecks = 0 := rfl

@[simp] theorem Effects.empty_renders : Effects.empty.renders = 0 := rfl

@[simp] theorem Effects.mk_append (r1 d1 q1 n1 l1 : List _) (rc1 rd1 : Nat)
    (r2 d2 q2 n2 l2 : List _) (rc2 rd2 : Nat) :
    (⟨r1, d1, q1, n1, l1, rc1, rd1⟩ : Effects) ++ (⟨r2, d2, q2, n2, l2, rc2, rd2⟩ : Effects)
      = ⟨r1 ++ r2, d1 ++ d2, q1 ++ q2, n1 ++ n2, l1 ++ l2, rc1 + rc2, rd1 + rd2⟩ := rfl

/-- Looking up a channel id in a registry whose head entry has that id. -/
theorem QueueState.findQueue_cons_self (qs : List (String × Nat)) (m n : Nat) (cid : String) :
    QueueState.findQueue ⟨(cid, n) :: qs, m⟩ cid = some n := by
  simp [QueueState.findQueue, List.find?]

/-- When the lookup misses, the channel id is not a key of the registry. -/
theorem QueueState.findQueue_none_not_mem (s : QueueState) (cid : String)
    (h : s.findQueue cid = none) : cid ∉ s.queues.map Prod.fst := by
  intro hmem
  rcases List.mem_map.mp hmem with ⟨x, hx, hxc⟩
  have hf : s.queues.find? (fun q => q.1 == cid) = none := by
    simpa [QueueState.findQueue] using h
  have hne := List.find?_eq_none.mp hf x hx
  simp [hxc] at hne

namespace DeliveryPipeline

/-- Claim C6: when the destination channel is absent from the cache at the
start of `deliver`, the article is dropped silently: `deliver` returns
immediately with no record, no render, no dispatch, no enqueue, no log, and
the queue registry unchanged. -/
theorem C6_missing_destination_silent_drop (env : Env) (na : NewArticle)
    (qs : QueueState) (h : env.channelInCache = false) :
    deliver env na qs = (Except.ok (), Effects.empty, qs) := by
  simp [deliver, h]

/-- Witness for C6 at a concrete environment. -/
theorem C6_missing_destination_silent_drop_witness :
    deliver envNoChannel artA {} = (Except.ok (), Effects.empty, ({} : QueueState)) :=
  C6_missing_destination_silent_drop envNoChannel artA {} rfl

/-- Claim C9: `getQueueForChannel` is idempotent per channel id — the second
call returns the queue of the first call and leaves the registry unchanged; a
queue is created (the registry grows by one entry) only when the id has no
queue yet, the registry is returned untouched when it already has one, and
key-uniqueness of the registry is preserved. -/
theorem C9_getQueueForChannel_idempotent (s : QueueState) (cid : String) :
    getQueueForChannel (getQueueForChannel s cid).2 cid
      = ((getQueueForChannel s cid).1, (getQueueForChannel s cid).2)
    ∧ ((s.queues.map Prod.fst).Nodup →
        (((getQueueForChannel s cid).2).queues.map Prod.fst).Nodup)
    ∧ (s.findQueue cid = none →
        ((getQueueForChannel s cid).2).queues.length = s.queues.length + 1)
    ∧ (∀ q, s.findQueue cid = some q → getQueueForChannel s cid = (q, s)) := by
  cases h : s.findQueue cid with
  | none =>
      have hg : getQueueForChannel s cid
          = (s.nextId, ⟨(cid, s.nextId) :: s.queues, s.nextId + 1⟩) := by
        simp only [getQueueForChannel, h]
      refine ⟨?_, ?_, ?_, ?_⟩
      · rw [hg]
        simp only [getQueueForChannel, QueueState.findQueue_cons_self]
      · intro hnd
        have hmem := QueueState.findQueue_none_not_mem s cid h
        rw [hg]
        exact List.Nodup.cons hmem hnd
      · intro _
        rw [hg]
        simp
      · intro q hq
        exact Option.noConfusion hq
  | some q =>
      have hg : getQueueForChannel s cid = (q, s) := by
        simp only [getQueueForChannel, h]
      refine ⟨?_, ?_, ?_, ?_⟩
      · simp [hg]
      · intro hnd
        rw [hg]
        exact hnd
      · intro hq
        exact Option.noConfusion hq
      · intro q' hq'
        cases hq'
        exact hg

/-- Witness for C9 at a concrete registry and channel id. -/
theorem C9_getQueueForChannel_idempotent_witness :
    getQueueForChannel (getQueueForChannel {} "chan1").2 "chan1"
      = ((getQueueForChannel {} "chan1").1, (getQueueForChannel {} "chan1").2)
    ∧ ((getQueueForChannel ({} : QueueState) "chan1").2).queues.length
      = ({} : QueueState).queues.length + 1 := by
  have h := C9_getQueueForChannel_idempotent {} "chan1"
  exact ⟨h.1, h.2.2.1 rfl⟩

/-- Claim C10: `handleArticleFailure` classifies an error as rate-limited
solely by whether its message contains the substring `limited`: every such
error ends the handler normally with a debug log `Ignoring rate-limited
article`, no warning-level log and no destination notification (and, when the
store write does not fail, only debug-level logs at all); every error whose
message lacks the substring is logged at warning severity. -/
theorem C10_limited_substring_classification (env : Env) (na : NewArticle) (err : Err) :
    (strIncludes err.message "limited" = true →
      (handleArticleFailure env na err).1 = Except.ok ()
      ∧ (handleArticleFailure env na err).2.notifications = []
      ∧ (∀ l ∈ (handleArticleFailure env na err).2.logs, l.1 ≠ LogLevel.warn)
      ∧ (LogLevel.debug, "Ignoring rate-limited article") ∈ (handleArticleFailure env na err).2.logs
      ∧ (env.saveFails = false →
          ∀ l ∈ (handleArticleFailure env na err).2.logs, l.1 = LogLevel.debug))
    ∧ (strIncludes err.message "limited" = false →
      ∃ m, (LogLevel.warn, m) ∈ (handleArticleFailure env na err).2.logs) := by
  constructor
  · intro hlim
    cases hdb : env.isMongoDatabase <;> cases hsf : env.saveFails <;>
      simp [handleArticleFailure, recordFailure, logOne, hlim, hdb, hsf, Effects.empty]
  · intro hlim
    cases hdb : env.isMongoDatabase <;> cases hsf : env.saveFails <;>
      cases hcode : err.code == some 50035 <;>
        cases hsend : env.channelSendResult <;>
          simp [handleArticleFailure, recordFailure, logOne, hlim, hdb, hsf,
            hcode, hsend, Effects.empty]

/-- The result of `handleArticleFailure` does not depend on the delivery-record
store configuration (`Feed.isMongoDatabase`) or on `record.save()` rejecting. -/
theorem handleArticleFailure_fst_ignores_store (c : Bool) (cr : Except Err ArticleMessage)
    (rl : Option Err) (rp : Bool) (eqr : String → Option Err) (db1 db2 sf1 sf2 : Bool)
    (cs : Option Err) (lf : Bool) (na : NewArticle) (err : Err) :
    (handleArticleFailure ⟨c, cr, rl, rp, eqr, db1, sf1, cs, lf⟩ na err).1
      = (handleArticleFailure ⟨c, cr, rl, rp, eqr, db2, sf2, cs, lf⟩ na err).1 := by
  cases hlim : strIncludes err.message "limited" <;>
    cases hcode : err.code == some 50035 <;>
      cases cs <;>
        simp [handleArticleFailure, hlim, hcode]

/-- `sendNewArticle` reads none of the store configuration fields. -/
theorem sendNewArticle_ignores_store (c : Bool) (cr : Except Err ArticleMessage)
    (rl : Option Err) (rp : Bool) (eqr : String → Option Err) (db1 db2 sf1 sf2 : Bool)
    (cs : Option Err) (lf : Bool) (na : NewArticle) (am : ArticleMessage) (qs : QueueState) :
    sendNewArticle ⟨c, cr, rl, rp, eqr, db1, sf1, cs, lf⟩ na am qs
      = sendNewArticle ⟨c, cr, rl, rp, eqr, db2, sf2, cs, lf⟩ na am qs := rfl

/-- The result of `deliver` does not depend on the delivery-record store
configuration or on `record.save()` rejecting. -/
theorem deliver_fst_ignores_store (c : Bool) (cr : Except Err ArticleMessage)
    (rl : Option Err) (rp : Bool) (eqr : String → Option Err) (db1 db2 sf1 sf2 : Bool)
    (cs : Option Err) (lf : Bool) (na : NewArticle) (qs : QueueState) :
    (deliver ⟨c, cr, rl, rp, eqr, db1, sf1, cs, lf⟩ na qs).1
      = (deliver ⟨c, cr, rl, rp, eqr, db2, sf2, cs, lf⟩ na qs).1 := by
  cases c with
  | false => rfl
  | true =>
      cases cr with
      | error e =>
          exact handleArticleFailure_fst_ignores_store true (Except.error e) rl rp eqr
            db1 db2 sf1 sf2 cs lf na e
      | ok am =>
          cases hpf : am.passedFilters with
          | false => simp [deliver, hpf]
          | true =>
              simp only [deliver, hpf, Bool.not_true]
              rw [sendNewArticle_ignores_store true (Except.ok am) rl rp eqr db1 db2 sf1 sf2 cs lf na am qs]
              rcases hs : sendNewArticle ⟨true, Except.ok am, rl, rp, eqr, db2, sf2, cs, lf⟩ na am qs
                with ⟨r, eff, qs'⟩
              cases r with
              | ok u => simp
              | error e =>
                  simpa using handleArticleFailure_fst_ignores_store true (Except.ok am) rl rp eqr
                    db1 db2 sf1 sf2 cs lf na e

/-- `handleArticleFailure` ends normally whenever the diagnostic
`channel.send` does not itself throw. -/
theorem handleArticleFailure_fst_ok (env : Env) (na : NewArticle) (err : Err)
    (h : env.channelSendResult = none) :
    (handleArticleFailure env na err).1 = Except.ok () := by
  cases hlim : strIncludes err.message "limited" <;>
    cases hcode : err.code == some 50035 <;>
      simp [handleArticleFailure, hlim, hcode, h]

/-- Counterexample to claim C3 as stated: when a dispatch fails with the
bad-request code 50035 and the diagnostic `channel.send` itself throws, that
error escapes `deliver`. -/
theorem C3_counterexample :
    (deliver envBadRequest artA {}).1 = Except.error ⟨"Missing Permissions", none⟩ := by
  rfl

/-- Claim C3 (amended): provided the diagnostic `channel.send` of the
bad-request (50035) path does not itself throw, `deliver` never throws — every
article-level error (dispatch failure, blocked filter, missing medium,
malformed payload, persistence failure) is contained inside the pipeline. -/
theorem C3_deliver_no_throw (env : Env) (na : NewArticle) (qs : QueueState)
    (h : env.channelSendResult = none) :
    (deliver env na qs).1 = Except.ok () := by
  cases hch : env.channelInCache with
  | false => simp [deliver, hch]
  | true =>
      cases hcr : env.createResult with
      | error e => simp [deliver, hch, hcr, handleArticleFailure_fst_ok env na e h]
      | ok am =>
          cases hpf : am.passedFilters with
          | false => simp [deliver, hch, hcr, hpf]
          | true =>
              rcases hs : sendNewArticle env na am qs with ⟨r, eff, qs'⟩
              cases r with
              | ok u => simp [deliver, hch, hcr, hpf, hs]
              | error e =>
                  simp [deliver, hch, hcr, hpf, hs, handleArticleFailure_fst_ok env na e h]

/-- Witness for C3 (amended) at a concrete environment. -/
theorem C3_deliver_no_throw_witness :
    (deliver envVanishedMedium artA {}).1 = Except.ok () :=
  C3_deliver_no_throw envVanishedMedium artA {} rfl

/-- Claim C8: outcome recording is fire-and-forget — with the store disabled
both recording calls are no-ops with no side effect at all; with the store
enabled and the write rejecting, no record is stored and the error is logged
inside the recording function; and the result of `deliver` is independent of
both store configuration fields, so the delivery control flow never observes a
persistence failure. -/
theorem C8_recording_fire_and_forget (env : Env) (na : NewArticle) (msg : String)
    (qs : QueueState) (c : Bool) (cr : Except Err ArticleMessage) (rl : Option Err)
    (rp : Bool) (eqr : String → Option Err) (db1 db2 sf1 sf2 : Bool)
    (cs : Option Err) (lf : Bool) :
    (env.isMongoDatabase = false →
      recordFailure env na msg = Effects.empty ∧ recordFilterBlock env na = Effects.empty)
    ∧ (env.isMongoDatabase = true → env.saveFails = true →
      (recordFailure env na msg).records = []
      ∧ (recordFailure env na msg).logs
          = [(LogLevel.debug, "Recording delivery record failure"),
             (LogLevel.error,
              "Failed to record article " ++ na.article._id ++
              " delivery failure in channel " ++ na.feedObject.channel ++
              " (error: " ++ msg ++ ")")])
    ∧ (deliver ⟨c, cr, rl, rp, eqr, db1, sf1, cs, lf⟩ na qs).1
        = (deliver ⟨c, cr, rl, rp, eqr, db2, sf2, cs, lf⟩ na qs).1 := by
  refine ⟨?_, ?_, ?_⟩
  · intro h
    constructor <;> simp [recordFailure, recordFilterBlock, h]
  · intro h1 h2
    constructor <;> simp [recordFailure, h1, h2, logOne]
  · exact deliver_fst_ignores_store c cr rl rp eqr db1 db2 sf1 sf2 cs lf na qs

/-- Witness for C8 at concrete environments: a disabled store is a no-op, a
rejecting save stores nothing, and toggling both store fields leaves the
result of `deliver` unchanged. -/
theorem C8_recording_fire_and_forget_witness :
    recordFailure envMongoOff artA "boom" = Effects.empty
    ∧ (recordFailure envSaveFail artA "boom").records = []
    ∧ (deliver ⟨true, Except.ok amOK, none, true, fun _ => none, true, true, none, true⟩ artA {}).1
        = (deliver ⟨true, Except.ok amOK, none, true, fun _ => none, false, false, none, true⟩ artA {}).1 := by
  have h1 := C8_recording_fire_and_forget envMongoOff artA "boom" {}
    true (Except.ok amOK) none true (fun _ => none) true false true false none true
  have h2 := C8_recording_fire_and_forget envSaveFail artA "boom" {}
    true (Except.ok amOK) none true (fun _ => none) true false true false none true
  exact ⟨(h1.1 rfl).1, (h2.2.1 rfl rfl).1, h1.2.2⟩

/-- Claim C7: for a rate-admitted article, direct-send mode issues exactly one
outbound request per rendered payload (all of them, to the medium's API
route), enqueues nothing client-side, succeeds exactly when every sub-request
fulfills, and leaves the queue registry unchanged; queue mode issues no
outbound request, always ends normally, and enqueues the article into the
destination channel's queue (creating it lazily). -/
theorem C7_dispatch_modes (env : Env) (na : NewArticle) (am : ArticleMessage)
    (qs : QueueState) (m : Medium) (hrl : env.rateLimit = none) :
    (env.restProducer = true → am.medium = some m →
      (sendNewArticle env na am qs).2.1.dispatches
        = am.apiPayloads.map (fun p => ("https://discord.com/api" ++ apiRouteFor m, p))
      ∧ (sendNewArticle env na am qs).2.1.queued = []
      ∧ ((sendNewArticle env na am qs).1 = Except.ok ()
          ↔ ∀ p ∈ am.apiPayloads, env.enqueueResult p = none)
      ∧ (sendNewArticle env na am qs).2.2 = qs)
    ∧ (env.restProducer = false →
      (sendNewArticle env na am qs).2.1.dispatches = []
      ∧ (sendNewArticle env na am qs).1 = Except.ok ()
      ∧ (sendNewArticle env na am qs).2.1.queued
          = [((getQueueForChannel qs na.feedObject.channel).1, na.feedObject.channel)]
      ∧ (sendNewArticle env na am qs).2.2
          = (getQueueForChannel qs na.feedObject.channel).2) := by
  constructor
  · intro hrp hm
    cases hfs : am.apiPayloads.findSome? env.enqueueResult with
    | none =>
        refine ⟨?_, ?_, ?_, ?_⟩ <;>
          simp [sendNewArticle, sendToService, hrl, hrp, hm, hfs, logOne]
        exact fun p hp => List.findSome?_eq_none_iff.mp hfs p hp
    | some e =>
        have hex := List.exists_of_findSome?_eq_some hfs
        refine ⟨?_, ?_, ?_, ?_⟩ <;>
          simp [sendNewArticle, sendToService, hrl, hrp, hm, hfs, logOne]
        rcases hex with ⟨p, hp, hfp⟩
        exact ⟨p, hp, by simp [hfp]⟩
  · intro hrp
    refine ⟨?_, ?_, ?_, ?_⟩ <;> simp [sendNewArticle, hrl, hrp, logOne]

/-- Witness for C7 at concrete environments in both dispatch modes. -/
theorem C7_dispatch_modes_witness :
    (sendNewArticle envBase artA amOK {}).2.1.dispatches
      = [("https://discord.com/api/channels/chan1/messages", "p1")]
    ∧ (sendNewArticle envBase artA amOK {}).1 = Except.ok ()
    ∧ (sendNewArticle envQueueMode artA amOK {}).2.1.dispatches = []
    ∧ (sendNewArticle envQueueMode artA amOK {}).2.1.queued = [(0, "chan1")] := by
  have h1 := (C7_dispatch_modes envBase artA amOK {} (Medium.channel "chan1") rfl).1 rfl rfl
  have h2 := (C7_dispatch_modes envQueueMode artA amOK {} (Medium.channel "chan1") rfl).2 rfl
  exact ⟨h1.1, h1.2.2.1.mpr (by intro p hp; cases hp <;> rfl), h2.1, h2.2.2.1⟩

/-- Counterexample to claim C1 as stated: with the store enabled, a
rate-limited delivery attempt does leave the delivery-record store changed —
`handleArticleFailure` records the failure before checking for the rate-limit
condition, so one `DeliveryOutcome` row is written. -/
theorem C1_counterexample :
    ((deliver envRateLimited artA {}).2.1.records).length = 1 := by
  rfl

/-- Claim C1 (amended): for a rate-limited article no dispatch request is
issued, nothing is enqueued, no notification is sent, no warning is logged and
`deliver` ends normally with the queue registry untouched; however a
DeliveryOutcome(failed) whose comment is the rate-limit message is recorded
whenever the store is enabled and the write succeeds (the store is unchanged
only when persistence is disabled or the write fails). -/
theorem C1_rate_limited_no_dispatch (env : Env) (na : NewArticle) (qs : QueueState)
    (e : Err) (am : ArticleMessage)
    (hch : env.channelInCache = true) (hcr : env.createResult = Except.ok am)
    (hpf : am.passedFilters = true) (hrl : env.rateLimit = some e)
    (hsig : isRateLimitSignal e = true) :
    (deliver env na qs).1 = Except.ok ()
    ∧ (deliver env na qs).2.1.dispatches = []
    ∧ (deliver env na qs).2.1.queued = []
    ∧ (deliver env na qs).2.1.notifications = []
    ∧ (∀ l ∈ (deliver env na qs).2.1.logs, l.1 ≠ LogLevel.warn)
    ∧ (deliver env na qs).2.1.records
        = (if env.isMongoDatabase && !env.saveFails then
            [{ articleID := na.article._id, feedURL := na.feedObject.url,
               channel := na.feedObject.channel, delivered := false,
               comment := if e.message = "" then "N/A" else e.message }]
          else [])
    ∧ (deliver env na qs).2.2 = qs := by
  have hlim : strIncludes e.message "limited" = true := hsig
  have hsna : sendNewArticle env na am qs
      = (Except.error e, { rateChecks := 1 }, qs) := by
    simp [sendNewArticle, hrl]
  cases hdb : env.isMongoDatabase <;> cases hsf : env.saveFails <;>
    refine ⟨?_, ?_, ?_, ?_, ?_, ?_, ?_⟩ <;>
      simp [deliver, hch, hcr, hpf, hsna, handleArticleFailure, recordFailure,
        hlim, hdb, hsf, logOne]

/-- Witness for C1 (amended) at a concrete rate-limited environment. -/
theorem C1_rate_limited_no_dispatch_witness :
    (deliver envRateLimited artA {}).1 = Except.ok ()
    ∧ (deliver envRateLimited artA {}).2.1.dispatches = []
    ∧ (deliver envRateLimited artA {}).2.1.queued = [] := by
  have h := C1_rate_limited_no_dispatch envRateLimited artA {}
    ⟨"Article rate limited for channel", none⟩ amOK rfl rfl rfl rfl (by decide)
  exact ⟨h.1, h.2.1, h.2.2.1⟩

/-- Counterexample to claim C2 as stated: when the medium vanishes between
resolution and dispatch, a DeliveryOutcome is recorded (the thrown
`Missing medium to send article via service` error is routed through
`handleArticleFailure`, which records the failure). -/
theorem C2_counterexample :
    (deliver envVanishedMedium artA {}).2.1.records
      = [{ articleID := "a1", feedURL := "https://feed.example/rss",
           channel := "chan1", delivered := false,
           comment := "Missing medium to send article via service" }] := by
  rfl

/-- Claim C2 (amended): when the destination exists at resolution time but
`getMedium` resolves nothing inside `sendToService`, no exception escapes
`deliver`, no request is dispatched, nothing is enqueued and no notification
is sent; however a DeliveryOutcome(failed, "Missing medium to send article via
service") is recorded whenever the store is enabled and the write succeeds. -/
theorem C2_vanished_medium_contained (env : Env) (na : NewArticle) (qs : QueueState)
    (am : ArticleMessage)
    (hch : env.channelInCache = true) (hcr : env.createResult = Except.ok am)
    (hpf : am.passedFilters = true) (hrl : env.rateLimit = none)
    (hrp : env.restProducer = true) (hm : am.medium = none) :
    (deliver env na qs).1 = Except.ok ()
    ∧ (deliver env na qs).2.1.dispatches = []
    ∧ (deliver env na qs).2.1.queued = []
    ∧ (deliver env na qs).2.1.notifications = []
    ∧ (deliver env na qs).2.1.records
        = (if env.isMongoDatabase && !env.saveFails then
            [{ articleID := na.article._id, feedURL := na.feedObject.url,
               channel := na.feedObject.channel, delivered := false,
               comment := "Missing medium to send article via service" }]
          else []) := by
  have hsna : sendNewArticle env na am qs
      = (Except.error ⟨"Missing medium to send article via service", none⟩,
         { rateChecks := 1 }, qs) := by
    simp [sendNewArticle, sendToService, hrl, hrp, hm, Effects.empty]
  have hlim : strIncludes "Missing medium to send article via service" "limited" = false := by
    decide
  cases hdb : env.isMongoDatabase <;> cases hsf : env.saveFails <;>
    refine ⟨?_, ?_, ?_, ?_, ?_⟩ <;>
      simp [deliver, hch, hcr, hpf, hsna, handleArticleFailure, recordFailure,
        hlim, hdb, hsf, logOne]

/-- Witness for C2 (amended) at a concrete environment. -/
theorem C2_vanished_medium_contained_witness :
    (deliver envVanishedMedium artA {}).1 = Except.ok ()
    ∧ (deliver envVanishedMedium artA {}).2.1.dispatches = []
    ∧ (deliver envVanishedMedium artA {}).2.1.notifications = [] := by
  have h := C2_vanished_medium_contained envVanishedMedium artA {}
    { amOK with medium := none } rfl rfl rfl rfl rfl rfl
  exact ⟨h.1, h.2.1, h.2.2.2.1⟩

/-- Counterexample to claim C4 as stated: the comment written for a
filter-blocked article is `Blocked by filters` (capital B), not the claimed
"blocked by filters". -/
theorem C4_counterexample :
    ((deliver envBlocked artA {}).2.1.records.map (fun r => r.comment))
      = ["Blocked by filters"]
    ∧ ("Blocked by filters" : String) ≠ "blocked by filters" := by
  exact ⟨rfl, by decide⟩

/-- Claim C4 (amended): with the store enabled and the write succeeding, a
filter-blocked article yields exactly one DeliveryOutcome with
`delivered = false` and comment `Blocked by filters`, and no dispatch request,
no client-side enqueue, no notification and no rate-limiter consultation
happen; `deliver` ends normally with the queue registry untouched. -/
theorem C4_filter_block_recorded (env : Env) (na : NewArticle) (qs : QueueState)
    (am : ArticleMessage)
    (hch : env.channelInCache = true) (hcr : env.createResult = Except.ok am)
    (hpf : am.passedFilters = false) (hdb : env.isMongoDatabase = true)
    (hsf : env.saveFails = false) :
    (deliver env na qs).1 = Except.ok ()
    ∧ (deliver env na qs).2.1.records
        = [{ articleID := na.article._id, feedURL := na.feedObject.url,
             channel := na.feedObject.channel, delivered := false,
             comment := "Blocked by filters" }]
    ∧ (deliver env na qs).2.1.dispatches = []
    ∧ (deliver env na qs).2.1.queued = []
    ∧ (deliver env na qs).2.1.notifications = []
    ∧ (deliver env na qs).2.1.rateChecks = 0
    ∧ (deliver env na qs).2.2 = qs := by
  cases hlf : env.logFiltered <;>
    refine ⟨?_, ?_, ?_, ?_, ?_, ?_, ?_⟩ <;>
      simp [deliver, hch, hcr, hpf, handleArticleBlocked, recordFilterBlock,
        hdb, hsf, hlf, logOne, Effects.empty]

/-- Witness for C4 (amended) at a concrete environment. -/
theorem C4_filter_block_recorded_witness :
    (deliver envBlocked artA {}).1 = Except.ok ()
    ∧ (deliver envBlocked artA {}).2.1.records
        = [{ articleID := "a1", feedURL := "https://feed.example/rss",
             channel := "chan1", delivered := false,
             comment := "Blocked by filters" }]
    ∧ (deliver envBlocked artA {}).2.1.dispatches = [] := by
  have h := C4_filter_block_recorded envBlocked artA {}
    { amOK with passedFilters := false } rfl rfl rfl rfl rfl
  exact ⟨h.1, h.2.1, h.2.2.1⟩

/-- Counterexample to claim C5 as stated: a dispatch failure with code 50035
whose sink-reported message happens to contain `limited` is classified as a
rate-limit condition first — no diagnostic message is sent to the destination,
although the claim demands exactly one for every 50035 failure. -/
theorem C5_counterexample :
    envLimited50035.enqueueResult "p1" = some ⟨"limited", some 50035⟩
    ∧ (deliver envLimited50035 artA {}).2.1.notifications = [] := by
  exact ⟨rfl, rfl⟩

/-- Claim C5 (amended): for an article whose dispatch fails with the 50035
bad-request condition and whose sink message does not contain `limited`: with
the store enabled and writing, one DeliveryOutcome(failed) with the
sink-reported message as comment is recorded, and — when the diagnostic send
fulfills — exactly one diagnostic message embedding that error text is sent
directly to the destination channel; `deliver` then ends normally (nothing is
retried or re-queued). -/
theorem C5_bad_request_notifies (env : Env) (na : NewArticle) (qs : QueueState)
    (am : ArticleMessage) (m : Medium) (err : Err)
    (hch : env.channelInCache = true) (hcr : env.createResult = Except.ok am)
    (hpf : am.passedFilters = true) (hrl : env.rateLimit = none)
    (hrp : env.restProducer = true) (hm : am.medium = some m)
    (hfs : am.apiPayloads.findSome? env.enqueueResult = some err)
    (hcode : err.code = some 50035)
    (hlim : strIncludes err.message "limited" = false)
    (hmsg : err.message ≠ "")
    (hsend : env.channelSendResult = none)
    (hdb : env.isMongoDatabase = true) (hsf : env.saveFails = false) :
    (deliver env na qs).1 = Except.ok ()
    ∧ (deliver env na qs).2.1.records
        = [{ articleID := na.article._id, feedURL := na.feedObject.url,
             channel := na.feedObject.channel, delivered := false,
             comment := err.message }]
    ∧ (deliver env na qs).2.1.notifications
        = ["Failed to send article <" ++ na.article.link ++ ">.```" ++
           err.message ++ "```"] := by
  have hsna : sendNewArticle env na am qs
      = (Except.error err,
         { dispatches := am.apiPayloads.map (fun p => ("https://discord.com/api" ++ apiRouteFor m, p)), rateChecks := 1 },
         qs) := by
    simp [sendNewArticle, sendToService, hrl, hrp, hm, hfs]
  refine ⟨?_, ?_, ?_⟩ <;>
    simp [deliver, hch, hcr, hpf, hsna, handleArticleFailure, recordFailure,
      hlim, hcode, hsend, hdb, hsf, hmsg, logOne]

/-- Witness for C5 (amended) at a concrete environment whose dispatch fails
with `Invalid Form Body`, code 50035. -/
theorem C5_bad_request_notifies_witness :
    (deliver envBadRequestNotify artA {}).1 = Except.ok ()
    ∧ (deliver envBadRequestNotify artA {}).2.1.records
        = [{ articleID := "a1", feedURL := "https://feed.example/rss",
             channel := "chan1", delivered := false,
             comment := "Invalid Form Body" }]
    ∧ (deliver envBadRequestNotify artA {}).2.1.notifications
        = ["Failed to send article <https://example.com/a1>.```Invalid Form Body```"] := by
  have h := C5_bad_request_notifies envBadRequestNotify artA {} amOK
    (Medium.channel "chan1") ⟨"Invalid Form Body", some 50035⟩
    rfl rfl rfl rfl rfl rfl rfl rfl (by decide) (by decide) rfl rfl rfl
  exact ⟨h.1, h.2.1, h.2.2⟩

/-- Witness for C10 at concrete errors on both sides of the classification. -/
theorem C10_limited_substring_classification_witness :
    (handleArticleFailure envBase artA ⟨"rate limited", none⟩).2.notifications = []
    ∧ (LogLevel.debug, "Ignoring rate-limited article")
        ∈ (handleArticleFailure envBase artA ⟨"rate limited", none⟩).2.logs
    ∧ (LogLevel.warn,
        "Failed to deliver article a1 (https://example.com/a1) of feed f1")
        ∈ (handleArticleFailure envBase artA ⟨"boom", none⟩).2.logs := by
  have h := (C10_limited_substring_classification envBase artA ⟨"rate limited", none⟩).1 (by decide)
  exact ⟨h.2.1, h.2.2.2.1, by decide⟩

end DeliveryPipeline
